import Mathlib

/-!
Shallow embedding of inadyn's `src/conf.c` (libConfuse-based configuration
loader) and verification of its natural-language specification.

C strings are modelled as `List Char`; machine string copies (`strlcpy`)
and the `host[:port]` split (`strchr`) are modelled explicitly.  Fixed
array capacities (`sizeof(...)`, `NELEMS(...)`) are parameters, bundled in
`Inadyn.Caps`, since the struct definitions live in the (absent) `ddns.h`.
-/

namespace Inadyn

/-- C strings, modelled as lists of characters (no NUL terminator). -/
abbrev Str := List Char

/-- Build a `Str` from a Lean string literal. -/
def cstr (s : String) : Str := s.toList

/-- Model of `strlcpy(dst, src, size)`: the destination receives at most
`size - 1` characters of `src` (one byte is reserved for the NUL). -/
def strlcpy (src : Str) (size : Nat) : Str := src.take (size - 1)

/-- Model of `strchr(str, ':')` combined with `*ptr++ = 0`: `none` when no
colon occurs, otherwise the part before the first colon and the part after
it. -/
def splitAtColon : Str → Option (Str × Str)
  | [] => none
  | c :: cs =>
    if c = ':' then some ([], cs)
    else (splitAtColon cs).map (fun p => (c :: p.1, p.2))

/-- Decimal value of a digit string. -/
def digitsToNat (s : Str) : Nat :=
  s.foldl (fun acc c => 10 * acc + (c.toNat - 48)) 0

/-- Modelled from the spec: `atonum` is defined outside `src/` (in the
repository's `ddns.h`); §4.2 of the spec says the port suffix "is parsed
as a non-negative integer port; on parse failure the default port is
substituted".  We model it as returning the parsed non-negative integer
for a non-empty all-digit string and `-1` on failure. -/
def atonum (s : Str) : Int :=
  if s ≠ [] ∧ s.all Char.isDigit then (digitsToNat s : Int) else -1

/-- `ddns_name_t`: a resolved endpoint, numeric port plus host name held in
a fixed `char name[...]` buffer. -/
structure DdnsName where
  port : Int
  name : Str
deriving Repr, DecidableEq

/-- A zeroed `ddns_name_t` (fresh from `calloc`). -/
def dn0 : DdnsName := { port := 0, name := [] }

/-- Fixed buffer capacities of `ddns_info_t` / `ddns_name_t`, i.e. the
`sizeof(...)` and `NELEMS(...)` expressions of `conf.c`; the struct
definitions live in `ddns.h`, outside `src/`, so the sizes are kept
abstract. -/
structure Caps where
  nameLen : Nat        -- sizeof(ddns_name_t.name)
  checkipUrlLen : Nat  -- sizeof(info->checkip_url)
  serverUrlLen : Nat   -- sizeof(info->server_url)
  userLen : Nat        -- sizeof(info->creds.username)
  passLen : Nat        -- sizeof(info->creds.password)
  hostLen : Nat        -- sizeof(info->alias[0].name)
  respLen : Nat        -- sizeof(info->server_response[0])
  respNum : Nat        -- NELEMS(info->server_response)
deriving Repr, DecidableEq

/-- `getserver` from `conf.c`: parse `server[:port]` into `name`.  Returns
`1` (failure) when the whole input string is longer than the name buffer,
or when `strdup` fails (`allocFail`); otherwise writes port (default when
no colon or `atonum` fails) and the `strlcpy`-copied host and returns `0`. -/
def getserver (nameLen : Nat) (dflt : Int) (server : Str) (name : DdnsName)
    (allocFail : Bool) : Nat × DdnsName :=
  if nameLen < server.length then (1, name)
  else if allocFail then (1, name)
  else
    match splitAtColon server with
    | none =>
        (0, { port := dflt, name := strlcpy server nameLen })
    | some (host, suffix) =>
        let port := if atonum suffix = -1 then dflt else atonum suffix
        (0, { port := port, name := strlcpy host nameLen })

/-- `ddns_system_t`: a Plugin Registry descriptor, holding the plugin name
and its default check-ip / update endpoints and URL paths. -/
structure DdnsSystem where
  name : Str
  checkip_name : Str
  checkip_url : Str
  server_name : Str
  server_url : Str
deriving Repr, DecidableEq

/-- `plugin_find`: look up a registry descriptor by name. -/
def plugin_find (registry : List DdnsSystem) (n : Str) : Option DdnsSystem :=
  registry.find? (fun s => s.name == n)

/-- One parsed `provider`/`custom` section of the configuration tree.  The
field defaults mirror the libConfuse schema defaults in `conf_parse_file`
(`NULL` strings, `cfg_false` booleans, empty lists). -/
structure ProviderCfg where
  username : Option Str := none
  password : Option Str := none
  hostname : List Str := []
  aliases : List Str := []   -- C field name: alias (a Lean keyword)
  ssl : Bool := false
  wildcard : Bool := false
  append_myip : Bool := false
  ddns_server : Option Str := none
  ddns_path : Option Str := none
  ddns_response : List Str := []
  checkip_server : Option Str := none
  checkip_path : Option Str := none
deriving Repr, DecidableEq

/-- `ddns_info_t`: one provider record.  Bounded arrays are modelled as
lists (the stored hostname count `alias_count` and response count
`server_response_num` are the list lengths). -/
structure DdnsInfo where
  system : Option DdnsSystem
  checkip_name : DdnsName
  checkip_url : Str
  server_name : DdnsName
  server_url : Str
  wildcard : Bool
  ssl_enabled : Bool
  username : Str
  password : Str
  aliases : List Str         -- C field name: alias (a Lean keyword)
  append_myip : Bool
  server_response : List Str
deriving Repr, DecidableEq

/-- A zeroed `ddns_info_t`, as produced by `calloc` in `create_provider`. -/
def emptyInfo : DdnsInfo :=
  { system := none, checkip_name := dn0, checkip_url := [], server_name := dn0
    server_url := [], wildcard := false, ssl_enabled := false, username := []
    password := [], aliases := [], append_myip := false, server_response := [] }

/-- `cfg_getserver` from `conf.c`: fetch an optional server string from the
section and resolve it with `getserver`; returns `1` and the unchanged name
when the option is unset.  Call sites ignore the return value and keep the
(possibly unchanged) name. -/
def cfg_getserver (nameLen : Nat) (dflt : Int) (s : Option Str)
    (name : DdnsName) : Nat × DdnsName :=
  match s with
  | none => (1, name)
  | some server => getserver nameLen dflt server name false

/-- `deprecate_alias` from `conf.c`: when the deprecated `alias` list is
non-empty and `hostname` is empty, move the alias values into `hostname`
in order and clear `alias`; error (`none`) when both are non-empty. -/
def deprecate_alias (cfg : ProviderCfg) : Option ProviderCfg :=
  if cfg.aliases = [] then some cfg
  else if cfg.hostname ≠ [] then none
  else some { cfg with hostname := cfg.aliases, aliases := [] }

/-- `validate_period` from `conf.c`: reads the period, computes a clamped
value into a local variable that is never stored back, and returns `0`
(success) unconditionally. -/
def validate_period (minP maxP val : Int) : Int :=
  let val1 := if val < minP then minP else val
  let _val2 := if val1 > maxP then maxP else val1
  0

/-- `validate_hostname` from `conf.c`: `-1` when the hostname option is
missing or empty, or when some entry is strictly longer than the alias
name buffer (`sizeof(info.alias[0].name) < strlen(name)`); else `0`. -/
def validate_hostname (hostLen : Nat) (hostname : Option (List Str)) : Int :=
  match hostname with
  | none => -1
  | some hs =>
    if hs = [] then -1
    else if hs.any (fun name => decide (hostLen < name.length)) then -1
    else 0

/-- `validate_common` from `conf.c`: plugin lookup, mandatory credentials
for non-custom providers, then alias migration followed by hostname
validation (in that order, short-circuiting).  Returns the migrated
section on success, `none` on failure. -/
def validate_common (registry : List DdnsSystem) (hostLen : Nat)
    (cfg : ProviderCfg) (provider : Str) (custom : Bool) : Option ProviderCfg :=
  if (plugin_find registry provider).isNone then none
  else if custom = false ∧ cfg.username = none then none
  else if custom = false ∧ cfg.password = none then none
  else
    match deprecate_alias cfg with
    | none => none
    | some cfg2 =>
      if validate_hostname hostLen (some cfg2.hostname) = 0 then some cfg2
      else none

/-- `validate_provider` from `conf.c`: a built-in provider section must
carry a title (the plugin name); then common validation with `custom = 0`. -/
def validate_provider (registry : List DdnsSystem) (hostLen : Nat)
    (title : Option Str) (cfg : ProviderCfg) : Option ProviderCfg :=
  match title with
  | none => none
  | some t => validate_common registry hostLen cfg t false

/-- `validate_custom` from `conf.c`: a custom section must set
`ddns-server`; then common validation under the fixed name "custom". -/
def validate_custom (registry : List DdnsSystem) (hostLen : Nat)
    (cfg : ProviderCfg) : Option ProviderCfg :=
  if cfg.ddns_server = none then none
  else validate_common registry hostLen cfg (cstr "custom") true

/-- Credential copy step of `set_provider_opts`: a username/password value
is copied (via `strlcpy`) only when its length is at most the buffer size
(`strlen(str) <= sizeof(...)`); otherwise the field keeps its value. -/
def copy_credentials (userLen passLen : Nat) (cfg : ProviderCfg)
    (info : DdnsInfo) : DdnsInfo :=
  let info1 :=
    match cfg.username with
    | some u =>
      if u.length ≤ userLen then { info with username := strlcpy u userLen }
      else info
    | none => info
  match cfg.password with
  | some p =>
    if p.length ≤ passLen then { info1 with password := strlcpy p passLen }
    else info1
  | none => info1

/-- The `ddns-response` collection loop of `set_provider_opts`: each value
is appended (via `strlcpy`) at position `server_response_num` unless the
array is already full (`server_response_num >= NELEMS(...)`), in which
case it is skipped. -/
def response_fold (respLen respNum : Nat) : List Str → List Str → List Str
  | acc, [] => acc
  | acc, r :: rs =>
    if respNum ≤ acc.length then response_fold respLen respNum acc rs
    else response_fold respLen respNum (acc ++ [strlcpy r respLen]) rs

/-- Response-pattern phase of `set_provider_opts` (custom providers): run
the collection loop over the configured `ddns-response` values; when the
configured list is empty, fill `server_response` from `generic_responses`
instead (up to `NELEMS(info->server_response)` entries, each `strlcpy`-ed).
`create_provider` always passes a zeroed record here, so the fill starts
at index 0. -/
def set_responses (respLen respNum : Nat) (generic : List Str)
    (rs : List Str) (info : DdnsInfo) : DdnsInfo :=
  let folded := response_fold respLen respNum info.server_response rs
  let info1 := { info with server_response := folded }
  if rs = [] then
    let fill := (generic.take respNum).map (fun g => strlcpy g respLen)
    { info1 with server_response := fill }
  else info1

/-- `set_provider_opts` from `conf.c`: resolve the plugin (by title, or the
fixed name "custom"), seed endpoints and paths from the plugin defaults
(failing when a plugin default overflows its buffer), copy flags,
credentials and hostnames from the section, and apply the custom-only
overrides.  Returns `1` on failure (partial record discarded by the
caller), `0` with the completed record on success.  `generic_responses` is
defined outside `src/` and passed as the `generic` parameter. -/
def set_provider_opts (caps : Caps) (dflt : Int)
    (registry : List DdnsSystem) (generic : List Str) (cfg : ProviderCfg)
    (title : Option Str) (custom : Bool) (info : DdnsInfo) :
    Nat × DdnsInfo :=
  let pname : Option Str := if custom then some (cstr "custom") else title
  match pname.bind (plugin_find registry) with
  | none => (1, info)
  | some system =>
    let info := { info with system := some system }
    let rcn := getserver caps.nameLen dflt system.checkip_name
      info.checkip_name false
    if rcn.1 ≠ 0 then (1, info)
    else
      let info := { info with checkip_name := rcn.2 }
      if caps.checkipUrlLen < system.checkip_url.length then (1, info)
      else
        let cu := strlcpy system.checkip_url caps.checkipUrlLen
        let info := { info with checkip_url := cu }
        let rsn := getserver caps.nameLen dflt system.server_name
          info.server_name false
        if rsn.1 ≠ 0 then (1, info)
        else
          let info := { info with server_name := rsn.2 }
          if caps.serverUrlLen < system.server_url.length then (1, info)
          else
            let su := strlcpy system.server_url caps.serverUrlLen
            let info := { info with server_url := su }
            let info := { info with wildcard := cfg.wildcard
                                    ssl_enabled := cfg.ssl }
            let info := copy_credentials caps.userLen caps.passLen cfg info
            let hs := cfg.hostname.map (fun h => strlcpy h caps.hostLen)
            let info := { info with aliases := info.aliases ++ hs }
            if custom then
              let info := { info with append_myip := cfg.append_myip }
              let ckn := (cfg_getserver caps.nameLen dflt cfg.checkip_server
                info.checkip_name).2
              let info := { info with checkip_name := ckn }
              let info :=
                match cfg.checkip_path with
                | some s =>
                  if s.length ≤ caps.checkipUrlLen then
                    { info with checkip_url := strlcpy s caps.checkipUrlLen }
                  else info
                | none => info
              let svn := (cfg_getserver caps.nameLen dflt cfg.ddns_server
                info.server_name).2
              let info := { info with server_name := svn }
              let info :=
                match cfg.ddns_path with
                | some s =>
                  if s.length ≤ caps.serverUrlLen then
                    { info with server_url := strlcpy s caps.serverUrlLen }
                  else info
                | none => info
              let info := set_responses caps.respLen caps.respNum generic
                cfg.ddns_response info
              (0, info)
            else (0, info)

/-- `create_provider` from `conf.c`: allocate a zeroed record, fill it with
`set_provider_opts`, and insert it at the head of the catalog
(`LIST_INSERT_HEAD`); on failure the catalog is unchanged and `1` is
returned. -/
def create_provider (caps : Caps) (dflt : Int)
    (registry : List DdnsSystem) (generic : List Str) (title : Option Str)
    (sec : ProviderCfg) (custom : Bool) (catalog : List DdnsInfo) :
    Nat × List DdnsInfo :=
  let r := set_provider_opts caps dflt registry generic sec title custom
    emptyInfo
  if r.1 ≠ 0 then (1, catalog) else (0, r.2 :: catalog)

/-- `conf_info_iterator` from `conf.c`: the static cursor is modelled as an
`Option Nat` index into the catalog list (`none` is the `NULL` pointer,
its initial value).  Reset mode (`first ≠ 0`) moves the cursor to the list
head and yields it; advance mode moves to the successor, yielding `none`
when the cursor is `NULL` or past the end. -/
def conf_info_iterator (catalog : List DdnsInfo) (ptr : Option Nat)
    (first : Bool) : Option Nat × Option DdnsInfo :=
  if first then
    match catalog with
    | [] => (none, none)
    | x :: _ => (some 0, some x)
  else
    match ptr with
    | none => (none, none)
    | some i =>
      match catalog.get? (i + 1) with
      | none => (none, none)
      | some x => (some (i + 1), some x)

/-- The top-level configuration tree accepted by `conf_parse_file`'s
schema: global scalar options plus titled `provider` and `custom`
sections.  Numeric defaults (`DDNS_DEFAULT_PERIOD`, ...) live in `ddns.h`;
the fields here hold the post-parse values. -/
structure GlobalCfg where
  fake_address : Bool := false
  cache_dir : Str := []
  period : Int := 0
  iterations : Int := 0
  forced_update : Int := 0
  iface : Option Str := none
  providers : List (Option Str × ProviderCfg) := []
  customs : List (Option Str × ProviderCfg) := []
deriving Repr, DecidableEq

/-- The Runtime Settings fields of `ddns_t` written by `conf_parse_file`. -/
structure DdnsCtx where
  normal_update_period_sec : Int := 0
  error_update_period_sec : Int := 0
  forced_update_period_sec : Int := 0
  total_iterations : Int := 0
  forced_update_fake_addr : Bool := false
deriving Repr, DecidableEq

/-- Observable outcome of `conf_parse_file`: the provider catalog (the
global `info_list`, which persists even on a failed load), the runtime
settings, the `cache_dir` / `iface` globals, and whether a non-NULL value
was returned (`ok`). -/
structure LoadResult where
  catalog : List DdnsInfo
  ctx : DdnsCtx
  cache_dir : Str
  iface : Option Str
  ok : Bool
deriving Repr, DecidableEq

/-- `conf_parse_file` from `conf.c`.  The external libConfuse parser is
modelled by its contract: the parse succeeds iff every registered
validator accepts (the period validator, which never fails, and the
provider/custom section validators, which also perform alias migration).
On validation failure nothing is written (`CFG_PARSE_ERROR`).  Otherwise
the global options are copied into the context — the period is stored
RAW, exactly as `cfg_getint(cfg, "period")` returns it — and
`create_provider` runs per section, OR-ing failures into `ret`; a non-zero
`ret` makes the function return NULL (`ok = false`). -/
def conf_parse_file (caps : Caps) (dflt errPeriod minP maxP : Int)
    (registry : List DdnsSystem) (generic : List Str) (once : Bool)
    (iface0 : Option Str) (cache0 : Str) (ctx0 : DdnsCtx)
    (g : GlobalCfg) : LoadResult :=
  let pv := validate_period minP maxP g.period
  let provs? := g.providers.mapM (fun sec =>
    (validate_provider registry caps.hostLen sec.1 sec.2).map
      (fun c => (sec.1, c)))
  let custs? := g.customs.mapM (fun sec =>
    (validate_custom registry caps.hostLen sec.2).map
      (fun c => (sec.1, c)))
  match pv, provs?, custs? with
  | 0, some provs, some custs =>
    let ctx : DdnsCtx :=
      { normal_update_period_sec := g.period
        error_update_period_sec := errPeriod
        forced_update_period_sec := g.forced_update
        total_iterations := if once then 1 else g.iterations
        forced_update_fake_addr := g.fake_address }
    let iface1 := if iface0.isSome then iface0 else g.iface
    let step := fun (custom : Bool) (acc : Nat × List DdnsInfo)
        (sec : Option Str × ProviderCfg) =>
      let r := create_provider caps dflt registry generic sec.1 sec.2
        custom acc.2
      (acc.1 ||| r.1, r.2)
    let acc1 := provs.foldl (step false) (0, [])
    let acc2 := custs.foldl (step true) acc1
    { catalog := acc2.2, ctx := ctx, cache_dir := g.cache_dir
      iface := iface1, ok := acc2.1 = 0 }
  | _, _, _ =>
    { catalog := [], ctx := ctx0, cache_dir := cache0, iface := iface0
      ok := false }

/-- The clamp that the spec (§4.2) describes for the update period, in the
order the source computes it: raise to the minimum, then cap at the
maximum. -/
def clampPeriod (minP maxP val : Int) : Int :=
  let val1 := if val < minP then minP else val
  if val1 > maxP then maxP else val1

end Inadyn

namespace Inadyn

/-! Concrete fixtures used by the evaluation theorems below. -/

/-- Generic capacities used where the exact sizes do not matter. -/
def capsT : Caps := ⟨64, 256, 256, 64, 64, 64, 64, 10⟩

/-- A registry entry whose plugin defaults all fit their buffers. -/
def sysGood : DdnsSystem :=
  { name := cstr "good", checkip_name := cstr "a", checkip_url := cstr "/c"
    server_name := cstr "b", server_url := cstr "/u" }

/-- A registry entry whose default `checkip_url` ("/toolong", 8 chars)
overflows the 4-byte URL buffer of `capsC2`: `set_provider_opts` hits its
`goto error` for any provider using this plugin. -/
def sysBad : DdnsSystem :=
  { name := cstr "bad", checkip_name := cstr "a", checkip_url := cstr "/toolong"
    server_name := cstr "b", server_url := cstr "/u" }

/-- Capacities with 4-byte URL buffers (so `sysBad` overflows). -/
def capsC2 : Caps := ⟨16, 4, 4, 16, 16, 16, 16, 4⟩

/-- A provider section that passes every validator. -/
def secOk : ProviderCfg :=
  { username := some (cstr "u"), password := some (cstr "p")
    hostname := [cstr "h"] }

/-- A configuration with two built-in providers, `good` and `bad`. -/
def gC2 : GlobalCfg :=
  { providers := [(some (cstr "good"), secOk), (some (cstr "bad"), secOk)] }

/-- Capacities with a 4-byte hostname buffer (`sizeof(info.alias[0].name)`). -/
def capsC3 : Caps := ⟨16, 8, 8, 8, 8, 4, 8, 2⟩

/-- A one-plugin registry for the hostname-boundary run. -/
def regC3 : List DdnsSystem :=
  [{ name := cstr "p", checkip_name := cstr "a", checkip_url := cstr "/"
     server_name := cstr "b", server_url := cstr "/" }]

/-- A provider section whose single hostname has length exactly 4. -/
def cfgC3 : ProviderCfg :=
  { username := some (cstr "u"), password := some (cstr "p")
    hostname := [cstr "abcd"] }

/-- A registry holding the fixed "custom" pseudo-plugin. -/
def regCustom : List DdnsSystem :=
  [{ name := cstr "custom", checkip_name := cstr "a", checkip_url := cstr "/"
     server_name := cstr "b", server_url := cstr "/" }]

/-- Capacities with a 4-byte response-string buffer. -/
def capsC4 : Caps := ⟨16, 8, 8, 8, 8, 8, 4, 4⟩

/-- A custom section configuring one over-long (6 > 4) response string. -/
def cfgC4 : ProviderCfg :=
  { hostname := [cstr "h"], ddns_server := some (cstr "d")
    ddns_response := [cstr "abcdef"] }

/-- Capacities with room for a single response pattern (`NELEMS = 1`). -/
def capsC5 : Caps := ⟨16, 8, 8, 8, 8, 8, 8, 1⟩

/-- A custom section configuring two response strings. -/
def cfgC5 : ProviderCfg :=
  { hostname := [cstr "h"], ddns_server := some (cstr "d")
    ddns_response := [cstr "ok", cstr "good"] }

/-- A section with only the deprecated `alias` list set. -/
def cfgAliasOnly : ProviderCfg := { aliases := [cstr "a", cstr "b"] }

/-- A section with both `alias` and `hostname` non-empty. -/
def cfgBoth : ProviderCfg :=
  { aliases := [cstr "a"], hostname := [cstr "h"] }

/-- A provider record distinguishable from `emptyInfo`. -/
def infoW : DdnsInfo := { emptyInfo with wildcard := true }

example : getserver 64 80 (cstr "example.org") dn0 false
    = (0, { port := 80, name := cstr "example.org" }) := by decide

example : getserver 64 80 (cstr "example.org:8080") dn0 false
    = (0, { port := 8080, name := cstr "example.org" }) := by decide

example : getserver 64 80 (cstr "example.org:nan") dn0 false
    = (0, { port := 80, name := cstr "example.org" }) := by decide

example : getserver 4 80 (cstr "abc:123") dn0 false = (1, dn0) := by decide

/-! Helper lemmas. -/

/-- `splitAtColon` finds nothing in a colon-free string. -/
theorem splitAtColon_of_not_mem (s : Str) (h : ':' ∉ s) :
    splitAtColon s = none := by
  induction s with
  | nil => rfl
  | cons c cs ih =>
    simp only [List.mem_cons, not_or] at h
    unfold splitAtColon
    rw [if_neg (fun hc => h.1 hc.symm), ih h.2]
    rfl

/-- `splitAtColon` splits at the first colon. -/
theorem splitAtColon_append (host suffix : Str) (h : ':' ∉ host) :
    splitAtColon (host ++ ':' :: suffix) = some (host, suffix) := by
  induction host with
  | nil => simp [splitAtColon]
  | cons c cs ih =>
    simp only [List.mem_cons, not_or] at h
    simp only [List.cons_append]
    unfold splitAtColon
    rw [if_neg (fun hc => h.1 hc.symm), ih h.2]
    rfl

/-- Closed form of the `ddns-response` collection loop: starting from
`acc`, it appends the truncated copies of the first
`respNum - acc.length` values and skips the rest. -/
theorem response_fold_eq (respLen respNum : Nat) (rs : List Str) :
    ∀ acc : List Str, response_fold respLen respNum acc rs
      = acc ++ (rs.take (respNum - acc.length)).map
          (fun r => strlcpy r respLen) := by
  induction rs with
  | nil => intro acc; simp [response_fold]
  | cons x xs ih =>
    intro acc
    unfold response_fold
    by_cases h : respNum ≤ acc.length
    · rw [if_pos h, ih]
      have h0 : respNum - acc.length = 0 := Nat.sub_eq_zero_of_le h
      simp [h0]
    · rw [if_neg h, ih]
      have hk : respNum - acc.length = (respNum - (acc.length + 1)) + 1 := by
        omega
      rw [hk, List.take_succ_cons, List.map_cons]
      simp

/-! Claim theorems. -/

/-- Claim C6: for every server string accepted by `getserver`, no colon
yields the HTTP default port; a colon followed by a valid non-negative
integer yields that integer; a colon followed by a non-numeric suffix
yields the HTTP default port instead of failing. -/
theorem getserver_port_defaulting (nameLen : Nat) (dflt : Int)
    (server host suffix : Str) (name : DdnsName) :
    (':' ∉ server → server.length ≤ nameLen →
      (getserver nameLen dflt server name false).2.port = dflt) ∧
    (':' ∉ host → (host ++ ':' :: suffix).length ≤ nameLen →
      (getserver nameLen dflt (host ++ ':' :: suffix) name false).2.port
        = (if suffix ≠ [] ∧ suffix.all Char.isDigit
           then (digitsToNat suffix : Int) else dflt)) := by
  constructor
  · intro hnc hlen
    unfold getserver
    rw [if_neg (by omega), if_neg (by simp),
      splitAtColon_of_not_mem server hnc]
  · intro hnc hlen
    unfold getserver
    rw [if_neg (by omega), if_neg (by simp), splitAtColon_append host suffix hnc]
    by_cases hd : suffix ≠ [] ∧ suffix.all Char.isDigit
    · have ha : atonum suffix = (digitsToNat suffix : Int) := by
        unfold atonum; rw [if_pos hd]
      have hne : atonum suffix ≠ -1 := by rw [ha]; omega
      simp only [ha, hne, if_neg hne, if_pos hd]
      simp [hne, ha]
    · have ha : atonum suffix = -1 := by unfold atonum; rw [if_neg hd]
      rw [if_neg hd]
      simp [ha]

/-- Claim C6, witness: `example.org` gives the default port 80,
`example.org:8080` gives 8080, `example.org:nan` gives 80. -/
theorem getserver_port_defaulting_witness :
    (getserver 64 80 (cstr "example.org") dn0 false).2.port = 80 ∧
    (getserver 64 80 (cstr "example.org" ++ ':' :: cstr "8080") dn0
      false).2.port = 8080 ∧
    (getserver 64 80 (cstr "example.org" ++ ':' :: cstr "nan") dn0
      false).2.port = 80 := by
  refine ⟨?_, ?_, ?_⟩
  · exact (getserver_port_defaulting 64 80 (cstr "example.org") (cstr "x")
      (cstr "y") dn0).1 (by decide) (by decide)
  · rw [(getserver_port_defaulting 64 80 (cstr "x") (cstr "example.org")
      (cstr "8080") dn0).2 (by decide) (by decide)]
    decide
  · rw [(getserver_port_defaulting 64 80 (cstr "x") (cstr "example.org")
      (cstr "nan") dn0).2 (by decide) (by decide)]
    decide

/-- Claim C7, counterexample: the claim says `getserver` fails only when
the HOST component exceeds the name capacity, and succeeds whenever the
host fits, regardless of a `:port` suffix.  But the code checks
`strlen(server)` — host plus suffix: with capacity 4, host "abc" fits,
yet "abc:123" is rejected. -/
theorem getserver_short_host_rejected :
    (cstr "abc").length ≤ 4 ∧
    (getserver 4 80 (cstr "abc" ++ ':' :: cstr "123") dn0 false).1 = 1 := by
  decide

/-- Claim C7 (amended): `getserver` (absent allocation failure) fails iff
the length of the WHOLE server string, including any `:port` suffix,
exceeds the fixed name capacity. -/
theorem getserver_fails_iff_total_length (nameLen : Nat) (dflt : Int)
    (server : Str) (name : DdnsName) :
    (getserver nameLen dflt server name false).1 = 1
      ↔ nameLen < server.length := by
  unfold getserver
  by_cases h : nameLen < server.length
  · simp [h]
  · rw [if_neg h, if_neg (by simp)]
    cases hs : splitAtColon server <;> simp [h]

/-- Claim C9: on every failing path (over-long input or `strdup` failure),
`getserver` leaves the output `ddns_name_t` untouched — neither host nor
port is written. -/
theorem getserver_failure_writes_nothing (nameLen : Nat) (dflt : Int)
    (server : Str) (name : DdnsName) (allocFail : Bool)
    (h : (getserver nameLen dflt server name allocFail).1 = 1) :
    (getserver nameLen dflt server name allocFail).2 = name := by
  unfold getserver at h ⊢
  by_cases h1 : nameLen < server.length
  · simp [h1]
  · by_cases h2 : allocFail = true
    · simp [h1, h2]
    · exfalso
      rw [if_neg h1, if_neg h2] at h
      cases hs : splitAtColon server <;> rw [hs] at h <;> simp at h

/-- Claim C9, witness: with capacity 2 the 4-character input "abcd" makes
`getserver` fail, and the output record is unchanged. -/
theorem getserver_failure_writes_nothing_witness :
    (getserver 2 80 (cstr "abcd") dn0 false).2 = dn0 :=
  getserver_failure_writes_nothing 2 80 (cstr "abcd") dn0 false (by decide)

/-- Claim C8: a section with only the deprecated `alias` list set is
migrated — `hostname` becomes the alias list in order and `alias` is
cleared; a section with both non-empty makes `deprecate_alias` (and hence
`validate_common`, i.e. the load) fail. -/
theorem deprecate_alias_spec (cfg : ProviderCfg) :
    (cfg.aliases ≠ [] → cfg.hostname = [] →
      deprecate_alias cfg
        = some { cfg with hostname := cfg.aliases, aliases := [] }) ∧
    (cfg.aliases ≠ [] → cfg.hostname ≠ [] → deprecate_alias cfg = none) ∧
    (∀ (registry : List DdnsSystem) (hostLen : Nat) (t : Str),
      cfg.aliases ≠ [] → cfg.hostname ≠ [] →
      validate_common registry hostLen cfg t false = none) := by
  refine ⟨?_, ?_, ?_⟩
  · intro ha hh
    unfold deprecate_alias
    rw [if_neg ha, if_neg (by simp [hh])]
  · intro ha hh
    unfold deprecate_alias
    rw [if_neg ha, if_pos hh]
  · intro registry hostLen t ha hh
    have hdep : deprecate_alias cfg = none := by
      unfold deprecate_alias
      rw [if_neg ha, if_pos hh]
    unfold validate_common
    rw [hdep]
    split_ifs <;> rfl

/-- Claim C8, witness: `{ alias = ["a","b"] }` migrates to
`hostname = ["a","b"]` with `alias` cleared; a section with both set
fails both `deprecate_alias` and `validate_common`. -/
theorem deprecate_alias_spec_witness :
    deprecate_alias cfgAliasOnly
      = some { cfgAliasOnly with hostname := cfgAliasOnly.aliases
                                 aliases := [] } ∧
    deprecate_alias cfgBoth = none ∧
    validate_common [] 4 cfgBoth (cstr "t") false = none :=
  ⟨(deprecate_alias_spec cfgAliasOnly).1 (by decide) (by decide),
   (deprecate_alias_spec cfgBoth).2.1 (by decide) (by decide),
   (deprecate_alias_spec cfgBoth).2.2 [] 4 (cstr "t") (by decide) (by decide)⟩

/-- Claim C10: advancing the catalog iterator when the cursor was never
set by a reset (or after the iteration was exhausted — both states are
the NULL cursor) yields NULL and does not advance; and any record the
iterator ever yields in advance mode is a member of the catalog. -/
theorem conf_info_iterator_safe (catalog : List DdnsInfo) :
    conf_info_iterator catalog none false = (none, none) ∧
    ∀ (s : Option Nat) (r : DdnsInfo),
      (conf_info_iterator catalog s false).2 = some r → r ∈ catalog := by
  constructor
  · rfl
  · intro s r h
    cases s with
    | none => simp [conf_info_iterator] at h
    | some i =>
      cases hg : catalog[i + 1]? with
      | none => simp [conf_info_iterator, hg] at h
      | some x =>
        simp [conf_info_iterator, hg] at h
        rw [← h]
        exact List.get?_mem (by rw [List.get?_eq_getElem?]; exact hg)

/-- Claim C10, witness: advancing from index 0 over a two-record catalog
yields the second record, which is in the catalog. -/
theorem conf_info_iterator_safe_witness : infoW ∈ [emptyInfo, infoW] :=
  (conf_info_iterator_safe [emptyInfo, infoW]).2 (some 0) infoW (by decide)

/-- Claim C1: the spec says the update period stored in Runtime Settings
after load is clamped into the [minimum, maximum] range.  The code does
not do this: `validate_period` computes the clamped value into a dead
local and returns 0, and `conf_parse_file` stores the raw configured
value.  With minimum 30 and maximum 86400, a configured period of 0 loads
successfully and Runtime Settings holds 0, while the clamp the spec
describes would give 30. -/
theorem period_not_clamped :
    validate_period 30 86400 0 = 0 ∧
    (conf_parse_file capsT 80 300 30 86400 [] [] false none [] {}
      { period := 0 }).ok = true ∧
    (conf_parse_file capsT 80 300 30 86400 [] [] false none [] {}
      { period := 0 }).ctx.normal_update_period_sec = 0 ∧
    clampPeriod 30 86400 0 = 30 ∧ (0 : Int) ≠ 30 := by
  decide

/-- Claim C2: the spec says a per-provider construction failure is skipped
and the overall load still succeeds.  The code logs "skipping" but also
accumulates the failure into `ret`, and `if (ret) return NULL` fails the
whole load.  Two validated providers, one of which hits the
plugin-default-overflow path in `set_provider_opts`: the good record is in
the catalog, yet `conf_parse_file` returns NULL. -/
theorem provider_failure_aborts_load :
    (conf_parse_file capsC2 80 300 30 86400 [sysGood, sysBad] [] false none
      [] {} gC2).ok = false ∧
    (conf_parse_file capsC2 80 300 30 86400 [sysGood, sysBad] [] false none
      [] {} gC2).catalog.length = 1 := by
  decide

/-- Claim C3: the spec says a hostname of exactly the maximum length is
accepted and stored unmodified, and no accepted hostname is silently
truncated.  With `sizeof(info.alias[0].name) = 4`: "abcd" (length 4) is
accepted by `validate_hostname` ("abcde" is fatal, as claimed), but
`set_provider_opts`'s `strlcpy` stores only 3 characters — the accepted
hostname is silently truncated to "abc". -/
theorem hostname_boundary_truncated :
    validate_hostname 4 (some [cstr "abcd"]) = 0 ∧
    validate_hostname 4 (some [cstr "abcde"]) = -1 ∧
    (set_provider_opts capsC3 80 regC3 [] cfgC3 (some (cstr "p")) false
      emptyInfo).1 = 0 ∧
    (set_provider_opts capsC3 80 regC3 [] cfgC3 (some (cstr "p")) false
      emptyInfo).2.aliases = [cstr "abc"] ∧
    cstr "abc" ≠ cstr "abcd" := by
  decide

/-- Claim C4, counterexample: the claim says a response-pattern string
longer than its capacity is dropped entirely, keeping the prior default,
and that a stored field is never a truncated form of the configured
value.  With a 4-byte response buffer, the configured response "abcdef"
is stored as the truncated "abc" — neither dropped nor intact. -/
theorem response_overflow_truncated_not_dropped :
    (set_provider_opts capsC4 80 regCustom [] cfgC4 none true
      emptyInfo).2.server_response = [cstr "abc"] ∧
    cstr "abc" ≠ cstr "abcdef" ∧
    [cstr "abc"] ≠ ([] : List Str) := by
  decide

/-- Claim C4 (amended): a username or password whose length strictly
exceeds its buffer size is dropped entirely (the field keeps its prior
value); one whose length is at most the buffer size is stored as its
`strlcpy` copy, i.e. truncated by one character when the length equals
the buffer size; response-pattern strings are never length-checked — each
collected value is stored as its `strlcpy`-truncated copy rather than
being dropped. -/
theorem creds_dropped_responses_truncated
    (userLen passLen respLen respNum : Nat) (cfg : ProviderCfg)
    (info : DdnsInfo) (u p : Str) (generic rs : List Str) :
    (cfg.username = some u → userLen < u.length →
      (copy_credentials userLen passLen cfg info).username
        = info.username) ∧
    (cfg.password = some p → passLen < p.length →
      (copy_credentials userLen passLen cfg info).password
        = info.password) ∧
    (cfg.username = some u → u.length ≤ userLen →
      (copy_credentials userLen passLen cfg info).username
        = strlcpy u userLen) ∧
    (info.server_response = [] → rs ≠ [] →
      (set_responses respLen respNum generic rs info).server_response
        = (rs.take respNum).map (fun r => strlcpy r respLen)) := by
  refine ⟨?_, ?_, ?_, ?_⟩
  · intro hu hlen
    have hne : ¬ (u.length ≤ userLen) := by omega
    cases hp : cfg.password with
    | none => simp [copy_credentials, hu, hp, hne]
    | some p2 =>
      by_cases h2 : p2.length ≤ passLen <;>
        simp [copy_credentials, hu, hp, hne, h2]
  · intro hp hlen
    have hne : ¬ (p.length ≤ passLen) := by omega
    cases hu : cfg.username with
    | none => simp [copy_credentials, hu, hp, hne]
    | some u2 =>
      by_cases h2 : u2.length ≤ userLen <;>
        simp [copy_credentials, hu, hp, hne, h2]
  · intro hu hlen
    cases hp : cfg.password with
    | none => simp [copy_credentials, hu, hp, hlen]
    | some p2 =>
      by_cases h2 : p2.length ≤ passLen <;>
        simp [copy_credentials, hu, hp, hlen, h2]
  · intro hempty hrs
    unfold set_responses
    rw [if_neg hrs, hempty, response_fold_eq]
    simp

/-- Claim C4 (amended), witness: a 3-character username with a 2-byte
buffer is dropped; the over-long response "abcdef" with a 4-byte buffer
is stored as "abc". -/
theorem creds_dropped_responses_truncated_witness :
    (copy_credentials 2 9 { username := some (cstr "abc") }
      emptyInfo).username = emptyInfo.username ∧
    (set_responses 4 4 [] [cstr "abcdef"] emptyInfo).server_response
      = [cstr "abc"] := by
  have h := creds_dropped_responses_truncated 2 9 4 4
    { username := some (cstr "abc") } emptyInfo (cstr "abc") (cstr "x")
    [] [cstr "abcdef"]
  refine ⟨h.1 (by decide) (by decide), ?_⟩
  rw [h.2.2.2 (by decide) (by decide)]
  decide

/-- Claim C5, counterexample: the claim says a non-empty `ddns-response`
list yields exactly the configured values.  With room for one response
pattern (`NELEMS = 1`), the configured list ["ok", "good"] is stored as
just ["ok"]: the second entry is skipped. -/
theorem response_capacity_entries_skipped :
    (set_provider_opts capsC5 80 regCustom [] cfgC5 none true
      emptyInfo).2.server_response = [cstr "ok"] ∧
    [cstr "ok"] ≠ [cstr "ok", cstr "good"] := by
  decide

/-- Claim C5 (amended): starting from a zeroed record, an empty
`ddns-response` list yields the built-in generic set truncated to the
array capacity (and each string `strlcpy`-bounded); a non-empty list
yields its first `NELEMS` values, each `strlcpy`-bounded; the result is
non-empty provided the relevant source list is non-empty and the
capacity is positive. -/
theorem set_responses_amended (respLen respNum : Nat)
    (generic rs : List Str) (info : DdnsInfo)
    (hempty : info.server_response = []) (hnum : 0 < respNum) :
    (rs = [] → (set_responses respLen respNum generic rs
        info).server_response
      = (generic.take respNum).map (fun g => strlcpy g respLen)) ∧
    (rs ≠ [] → (set_responses respLen respNum generic rs
        info).server_response
      = (rs.take respNum).map (fun r => strlcpy r respLen)) ∧
    (rs = [] → generic ≠ [] →
      (set_responses respLen respNum generic rs info).server_response
        ≠ []) ∧
    (rs ≠ [] →
      (set_responses respLen respNum generic rs info).server_response
        ≠ []) := by
  have hfill : rs = [] → (set_responses respLen respNum generic rs
      info).server_response
      = (generic.take respNum).map (fun g => strlcpy g respLen) := by
    intro hrs
    subst hrs
    unfold set_responses
    rw [if_pos rfl]
  have hkeep : rs ≠ [] → (set_responses respLen respNum generic rs
      info).server_response
      = (rs.take respNum).map (fun r => strlcpy r respLen) := by
    intro hrs
    unfold set_responses
    rw [if_neg hrs, hempty, response_fold_eq]
    simp
  refine ⟨hfill, hkeep, ?_, ?_⟩
  · intro hrs hg
    rw [hfill hrs]
    simp [hg, Nat.pos_iff_ne_zero.mp hnum]
  · intro hrs
    rw [hkeep hrs]
    simp [hrs, Nat.pos_iff_ne_zero.mp hnum]

/-- Claim C5 (amended), witness: with capacity 2, an empty configured list
yields the (truncated) generic set and a two-element configured list is
kept; both results are non-empty. -/
theorem set_responses_amended_witness :
    (set_responses 8 2 [cstr "OK", cstr "good"] [] emptyInfo).server_response
      = [cstr "OK", cstr "good"] ∧
    (set_responses 8 2 [] [cstr "x", cstr "y"] emptyInfo).server_response
      = [cstr "x", cstr "y"] ∧
    (set_responses 8 2 [cstr "OK"] [] emptyInfo).server_response ≠ [] ∧
    (set_responses 8 2 [] [cstr "z"] emptyInfo).server_response ≠ [] := by
  have h1 := set_responses_amended 8 2 [cstr "OK", cstr "good"] [] emptyInfo
    (by decide) (by decide)
  have h2 := set_responses_amended 8 2 [] [cstr "x", cstr "y"] emptyInfo
    (by decide) (by decide)
  have h3 := set_responses_amended 8 2 [cstr "OK"] [] emptyInfo
    (by decide) (by decide)
  have h4 := set_responses_amended 8 2 [] [cstr "z"] emptyInfo
    (by decide) (by decide)
  refine ⟨?_, ?_, h3.2.2.1 rfl (by decide), h4.2.2.2 (by decide)⟩
  · rw [h1.1 rfl]; decide
  · rw [h2.2.1 (by decide)]; decide

end Inadyn
